import Mathlib

/-
  Verification development for the orenoagent-cli repository: a terminal
  chat client (two program variants, called part000 and part001 below)
  plus a static tool registry (tool.go).  Pure logic is embedded as Lean
  functions; calls into external libraries (encoding/json, net/http, the
  websearch provider, the lipgloss style renderer, the bubbles textarea)
  are embedded as explicit inputs (oracles) or as small models of the
  documented behavior of those libraries, noted at each definition.
-/

set_option maxHeartbeats 1000000

/- ## Tool registry (tool.go, and the identical list in part001) -/

structure SchemaProperty where
  propName : String
  propType : String
  propDescription : String

structure ToolSchema where
  schemaType : String
  properties : List SchemaProperty
  required : List String

structure ToolDecl where
  name : String
  description : String
  parameters : Option ToolSchema

/-- The registry of tool.go, with the exact Name and Description strings
and the declared parameter schemas.  The handler bodies are embedded
separately below. -/
def Tools : List ToolDecl :=
  [ { name := "currentTime"
    , description := "Get the current date and time with timezone in a human-readable format."
    , parameters := none }
  , { name := "webSearch"
    , description := "Get the current date and time with timezone in a human-readable format."
    , parameters := some
        { schemaType := "object"
        , properties := [ { propName := "keyword", propType := "string"
                          , propDescription := "web search keyword." } ]
        , required := ["keyword"] } }
  , { name := "WebReader"
    , description := "Reads and returns the content from the specified URL"
    , parameters := some
        { schemaType := "object"
        , properties := [ { propName := "url", propType := "string"
                          , propDescription := "URL of the page to retrieve" } ]
        , required := ["url"] } } ]

/- ## The webSearch handler -/

/-- One mapped search result, the anonymous result struct of the handler:
the provider fields Title, Link.String() and Description, mapped to
Title, Link and Snippet before serialization. -/
structure SearchResult where
  title : String
  link : String
  snippet : String

/-- Minimal JSON string escaping used by the serialization model. -/
def escapeJSONString (s : String) : String :=
  String.mk (s.data.foldr
    (fun c acc =>
      if c = '"' then '\\' :: '"' :: acc
      else if c = '\\' then '\\' :: '\\' :: acc
      else if c = '\n' then '\\' :: 'n' :: acc
      else c :: acc) [])

/-- Model of json.Marshal on one result struct. -/
def marshalResult (r : SearchResult) : String :=
  "\x7b\"Title\":\"" ++ escapeJSONString r.title ++
  "\",\"Link\":\"" ++ escapeJSONString r.link ++
  "\",\"Snippet\":\"" ++ escapeJSONString r.snippet ++ "\"\x7d"

/-- Model of json.Marshal on the slice of result structs. -/
def marshalResults (rs : List SearchResult) : String :=
  "[" ++ String.intercalate "," (rs.map marshalResult) ++ "]"

/-- The decoded argument struct of the webSearch handler. -/
structure WSParam where
  keyword : String

/-- The webSearch handler body from tool.go.  The external call
json.Unmarshal is an input: the parse argument is its outcome (an error
message, or the decoded struct).  The external search provider is the
search input.  The Bool in the result records whether the provider was
invoked (the outbound network call).  On a parse error the handler
returns fmt.Sprintf of the error and never touches the provider;
otherwise it searches, surfaces a provider error as the result string,
and else serializes the mapped results. -/
def webSearchHandler (parse : Except String WSParam)
    (search : String → Except String (List SearchResult)) : String × Bool :=
  match parse with
  | .error e => (e, false)
  | .ok p =>
    match search p.keyword with
    | .error e => (e, true)
    | .ok res => (marshalResults res, true)

/- ## The WebReader handler -/

/-- The decoded argument struct of the WebReader handler. -/
structure WRParam where
  url : String

/-- Model of an http.Request value: the parsed target and its headers. -/
structure HttpRequest where
  url : String
  headers : List (String × String)

/-- Models http.NewRequest with method GET: it returns a nil request
pointer together with an error when url.Parse rejects the raw URL; a
URL containing an ASCII control character is such a case (net/url
reports an invalid control character in the URL).  none stands for the
nil request of the error case. -/
def newRequestGET (u : String) : Option HttpRequest :=
  if u.data.any (fun c => c.toNat < 32) then none else some { url := u, headers := [] }

/-- Model of req.Header.Set on a non-nil request. -/
def setHeader (r : HttpRequest) (k v : String) : HttpRequest :=
  { r with headers := r.headers ++ [(k, v)] }

/-- Outcome of running a Go tool handler: a returned string, or a
runtime panic that crashes the process. -/
inductive HandlerOutcome
  | returns (s : String)
  | panics
deriving DecidableEq

/-- The browser-like User-Agent constant of tool.go. -/
def toolGoUA : String :=
  "Mozilla/5.0 (Macintosh; Intel Mac OS X 10_15_7) AppleWebKit/537.36 (KHTML, like Gecko) Chrome/142.0.0.0 Safari/537.36"

/-- The WebReader handler body from tool.go (part001 differs only in the
User-Agent literal, passed here as the ua argument).  External calls are
inputs: parse is the json.Unmarshal outcome, doRequest is client.Do
(yielding a transport error or a response body handle), readAll is
io.ReadAll on that body.  The source discards the error of
http.NewRequest with a blank identifier and then calls req.Header.Set;
when NewRequest failed the request pointer is nil and that call
dereferences a nil pointer, which is the panics outcome here. -/
def webReaderHandler (ua : String) (parse : Except String WRParam)
    (newReq : String → Option HttpRequest)
    (doRequest : HttpRequest → Except String String)
    (readAll : String → Except String String) : HandlerOutcome :=
  match parse with
  | .error e => .returns e
  | .ok p =>
    match newReq p.url with
    | none => .panics
    | some req =>
      let req2 := setHeader req "User-Agent" ua
      match doRequest req2 with
      | .error e => .returns e
      | .ok body0 =>
        match readAll body0 with
        | .error e => .returns e
        | .ok body => .returns body

/- ## The currentTime handler: the Go clock and RFC 3339 -/

/-- A wall-clock instant as Go hands it to Format: calendar fields plus
the timezone offset in minutes.  time.Now() is external, so the clock
is an explicit input of the handler model. -/
structure GoTime where
  year : Nat
  month : Nat
  day : Nat
  hour : Nat
  minute : Nat
  second : Nat
  offMin : Int
deriving DecidableEq

/-- Field ranges under which Go prints this instant in the fixed-width
RFC 3339 shape (offsets below one day). -/
def ValidGoTime (t : GoTime) : Prop :=
  t.year ≤ 9999 ∧ 1 ≤ t.month ∧ t.month ≤ 12 ∧ 1 ≤ t.day ∧ t.day ≤ 31 ∧
  t.hour ≤ 23 ∧ t.minute ≤ 59 ∧ t.second ≤ 59 ∧ t.offMin.natAbs ≤ 1439

instance (t : GoTime) : Decidable (ValidGoTime t) := by
  unfold ValidGoTime; infer_instance

def digitChar (n : Nat) : Char := Char.ofNat (48 + n)

def digitVal (c : Char) : Nat := c.toNat - 48

def isDigitChar (c : Char) : Bool := 48 ≤ c.toNat && c.toNat ≤ 57

/-- Two-digit zero-padded field, as the layout 01, 02, 15, 04, 05. -/
def pad2 (n : Nat) : List Char := [digitChar (n / 10), digitChar (n % 10)]

/-- Four-digit zero-padded year, as the layout 2006. -/
def pad4 (n : Nat) : List Char :=
  [digitChar (n / 1000), digitChar (n / 100 % 10), digitChar (n / 10 % 10), digitChar (n % 10)]

/-- The numeric timezone of the RFC 3339 layout: Z for offset zero,
otherwise a sign and zero-padded hours and minutes. -/
def tzChars (off : Int) : List Char :=
  if off = 0 then ['Z']
  else if 0 < off then '+' :: (pad2 (off.toNat / 60) ++ ':' :: pad2 (off.toNat % 60))
  else '-' :: (pad2 ((-off).toNat / 60) ++ ':' :: pad2 ((-off).toNat % 60))

/-- Model of time.Format with the time.RFC3339 layout
2006-01-02T15:04:05Z07:00. -/
def formatRFC3339 (t : GoTime) : List Char :=
  pad4 t.year ++ '-' :: (pad2 t.month ++ '-' :: (pad2 t.day ++ 'T' ::
    (pad2 t.hour ++ ':' :: (pad2 t.minute ++ ':' :: (pad2 t.second ++ tzChars t.offMin)))))

/-- The currentTime handler of tool.go: it ignores its argument and
returns the clock instant formatted with the RFC 3339 layout; the body
is total, with no error path. -/
def currentTime (now : GoTime) (_args : String) : String :=
  String.mk (formatRFC3339 now)

def parseDigit (c : Char) : Option Nat :=
  if isDigitChar c then some (digitVal c) else none

def parse2 : List Char → Option (Nat × List Char)
  | a :: b :: rest =>
    match parseDigit a, parseDigit b with
    | some x, some y => some (x * 10 + y, rest)
    | _, _ => none
  | _ => none

def parse4 : List Char → Option (Nat × List Char)
  | a :: b :: c :: d :: rest =>
    match parseDigit a, parseDigit b, parseDigit c, parseDigit d with
    | some x, some y, some z, some w => some (((x * 10 + y) * 10 + z) * 10 + w, rest)
    | _, _, _, _ => none
  | _ => none

def expect (c : Char) : List Char → Option (List Char)
  | x :: rest => if x = c then some rest else none
  | [] => none

/-- Absolute offset hh:mm, consuming the whole remainder. -/
def parseOffs (cs : List Char) : Option Nat :=
  match parse2 cs with
  | some (h, rest) =>
    match expect ':' rest with
    | some rest2 =>
      match parse2 rest2 with
      | some (mi, []) => some (h * 60 + mi)
      | _ => none
    | none => none
  | none => none

def parseTZ : List Char → Option Int
  | c :: rest =>
    if c = 'Z' then (if rest = [] then some 0 else none)
    else if c = '+' then (parseOffs rest).map (fun n => (n : Int))
    else if c = '-' then (parseOffs rest).map (fun n => -(n : Int))
    else none
  | [] => none

/-- An RFC 3339 parser over the fixed-width layout, with range checks:
the inverse direction of the round-trip property. -/
def parseRFC3339 (cs : List Char) : Option GoTime :=
  match parse4 cs with
  | none => none
  | some (y, r1) =>
    match expect '-' r1 with
    | none => none
    | some r2 =>
      match parse2 r2 with
      | none => none
      | some (mo, r3) =>
        match expect '-' r3 with
        | none => none
        | some r4 =>
          match parse2 r4 with
          | none => none
          | some (d, r5) =>
            match expect 'T' r5 with
            | none => none
            | some r6 =>
              match parse2 r6 with
              | none => none
              | some (h, r7) =>
                match expect ':' r7 with
                | none => none
                | some r8 =>
                  match parse2 r8 with
                  | none => none
                  | some (mi, r9) =>
                    match expect ':' r9 with
                    | none => none
                    | some r10 =>
                      match parse2 r10 with
                      | none => none
                      | some (s, r11) =>
                        match parseTZ r11 with
                        | none => none
                        | some off =>
                          if 1 ≤ mo ∧ mo ≤ 12 ∧ 1 ≤ d ∧ d ≤ 31 ∧
                             h ≤ 23 ∧ mi ≤ 59 ∧ s ≤ 59 then
                            some { year := y, month := mo, day := d, hour := h
                                 , minute := mi, second := s, offMin := off }
                          else none


/- ## The chat view controller (part000 and part001) -/

/-- The slice of bubbles textarea state the program observes: the
buffered runes and the CharLimit field.  Modelled from the bubbles
library: insertion truncates its input so the buffer never exceeds a
positive CharLimit. -/
structure TextArea where
  value : List Char
  charLimit : Nat
deriving DecidableEq

/-- Rune insertion honoring CharLimit (bubbles InsertString and typed
runes both go through this truncation when CharLimit is positive). -/
def taInsert (ta : TextArea) (cs : List Char) : TextArea :=
  if 0 < ta.charLimit then
    { ta with value := ta.value ++ cs.take (ta.charLimit - ta.value.length) }
  else
    { ta with value := ta.value ++ cs }

/-- The key presses the Update functions distinguish.  The runes case
is ordinary typed input handled inside textarea.Update; the other case
covers every remaining key (only cursor movement and similar). -/
inductive Key
  | enter
  | ctrlJ
  | ctrlC
  | esc
  | runes (cs : List Char)
  | backspace
  | other
deriving DecidableEq

/-- The textarea.Update step for a key press.  InsertNewline was
disabled in initialModel, so the enter key leaves the buffer alone;
ctrl+c, escape and ctrl+j are not bound by the textarea either. -/
def taUpdate (ta : TextArea) : Key → TextArea
  | .runes cs => taInsert ta cs
  | .backspace => { ta with value := ta.value.dropLast }
  | _ => ta

/-- The bubbletea messages the Update switch distinguishes. -/
inductive Msg
  | windowSize (w h : Int)
  | answer (s : String)
  | reasoning (s : String)
  | functionCall (s : String)
  | key (k : Key)
  | errMsg (e : String)

/-- The lipgloss style values of the two programs.  A style render call
is an external computation whose output depends on the detected terminal
profile, so each rendered badge or label is an opaque string, and the
width-constrained wrapping style and the bordered block style of the
part000 render method are opaque functions. -/
structure Styles where
  youBadge : String
  agentBadge : String
  reasoningBadge : String
  functionCallBadge : String
  gray : String → String
  wrap : Int → String → String
  block : String → String
  youLabel : String
  agentLabel : String
  reasoningLabel : String
  functionCallLabel : String

/-- Content() of answerMessage in part000. -/
def answerContent (st : Styles) (s : String) : String := st.agentBadge ++ " " ++ s

/-- Content() of reasoningMessage in part000. -/
def reasoningContent (st : Styles) (s : String) : String :=
  st.reasoningBadge ++ " " ++ st.gray s

/-- Content() of functionCallMessage in part000. -/
def functionCallContent (st : Styles) (s : String) : String :=
  st.functionCallBadge ++ " " ++ st.gray s

/-- The model struct shared by both variants (part001 additionally
stores two style values, carried here by the Styles argument).  The
dispatched list is the log of ask calls, so that the asynchronous
dispatch effect is visible in the embedding; scroll position is not
modelled (GotoBottom never touches messages or content text). -/
structure ChatModel where
  messages : List String
  textarea : TextArea
  vpWidth : Int
  vpHeight : Int
  taWidth : Int
  vpContent : String
  dispatched : List String
  quit : Bool
  err : Option String

/-- The string the part000 render method builds: each message wrapped
to the viewport width and then laid out by the bordered block style,
concatenated in order. -/
def renderString000 (st : Styles) (w : Int) (msgs : List String) : String :=
  msgs.foldl (fun s msg => s ++ st.block (st.wrap w msg)) ""

/-- The part000 render method: writes the rendered transcript into the
viewport content. -/
def setVp000 (st : Styles) (m : ChatModel) : ChatModel :=
  { m with vpContent := renderString000 st m.vpWidth m.messages }

/-- The inline rendering of part001: the messages joined by newlines
and wrapped to the viewport width. -/
def renderString001 (st : Styles) (w : Int) (msgs : List String) : String :=
  st.wrap w (String.intercalate "\n" msgs)

/-- The part001 viewport SetContent step. -/
def setVp001 (st : Styles) (m : ChatModel) : ChatModel :=
  { m with vpContent := renderString001 st m.vpWidth m.messages }

/-- The textarea.Update call at the top of both Update functions (the
viewport.Update call beside it only moves scroll state). -/
def preStep (m : ChatModel) (msg : Msg) : ChatModel :=
  match msg with
  | .key k => { m with textarea := taUpdate m.textarea k }
  | _ => m

/-- The Update function of part000.  Window sizes re-render only a
non-empty transcript; each agent event appends one labelled entry and
re-renders; enter appends one You entry, re-renders, clears the input
and dispatches the buffered text; ctrl+j inserts a newline; ctrl+c and
escape quit; an error message is stored. -/
def update000 (st : Styles) (m0 : ChatModel) (msg : Msg) : ChatModel :=
  let m := preStep m0 msg
  match msg with
  | .windowSize w h =>
    let m2 := { m with vpWidth := w, taWidth := w, vpHeight := h - 3 - 3 }
    if 0 < m2.messages.length then setVp000 st m2 else m2
  | .answer s => setVp000 st { m with messages := m.messages ++ [answerContent st s] }
  | .reasoning s => setVp000 st { m with messages := m.messages ++ [reasoningContent st s] }
  | .functionCall s =>
    setVp000 st { m with messages := m.messages ++ [functionCallContent st s] }
  | .key .enter =>
    let message := String.mk m.textarea.value
    let m2 := setVp000 st { m with messages := m.messages ++ [st.youBadge ++ " " ++ message] }
    { m2 with textarea := { m2.textarea with value := [] }
            , dispatched := m2.dispatched ++ [message] }
  | .key .ctrlJ => { m with textarea := taInsert m.textarea ['\n'] }
  | .key .ctrlC => { m with quit := true }
  | .key .esc => { m with quit := true }
  | .key _ => m
  | .errMsg e => { m with err := some e }

/-- The Update function of part001.  It differs from part000 in the
transcript representation: every append pushes two strings, a rendered
role label and the text; enter submits the buffered text with a
trailing newline appended. -/
def update001 (st : Styles) (m0 : ChatModel) (msg : Msg) : ChatModel :=
  let m := preStep m0 msg
  match msg with
  | .windowSize w h =>
    let m2 := { m with vpWidth := w, taWidth := w, vpHeight := h - 3 - 3 }
    if 0 < m2.messages.length then setVp001 st m2 else m2
  | .answer s => setVp001 st { m with messages := m.messages ++ [st.agentLabel, s] }
  | .reasoning s => setVp001 st { m with messages := m.messages ++ [st.reasoningLabel, s] }
  | .functionCall s =>
    setVp001 st { m with messages := m.messages ++ [st.functionCallLabel, s] }
  | .key .enter =>
    let message := String.mk m.textarea.value ++ "\n"
    let m2 := setVp001 st { m with messages := m.messages ++ [st.youLabel, message] }
    { m2 with textarea := { m2.textarea with value := [] }
            , dispatched := m2.dispatched ++ [message] }
  | .key .ctrlJ => { m with textarea := taInsert m.textarea ['\n'] }
  | .key .ctrlC => { m with quit := true }
  | .key .esc => { m with quit := true }
  | .key _ => m
  | .errMsg e => { m with err := some e }

/-- The initialModel of both variants: empty transcript, CharLimit 280,
a 30 by 5 viewport holding the welcome text. -/
def initialModel : ChatModel :=
  { messages := []
  , textarea := { value := [], charLimit := 280 }
  , vpWidth := 30
  , vpHeight := 5
  , taWidth := 30
  , vpContent := "Welcome to ore-no-agent!\nType a message and press Enter to send."
  , dispatched := []
  , quit := false
  , err := none }

/-- Running the part000 program over a delivered message sequence. -/
def run000 (st : Styles) (msgs : List Msg) : ChatModel :=
  msgs.foldl (update000 st) initialModel

/-- Running the part001 program over a delivered message sequence. -/
def run001 (st : Styles) (msgs : List Msg) : ChatModel :=
  msgs.foldl (update001 st) initialModel

/-- A concrete style assignment (identity wrapping, plain labels) used
to evaluate the models on concrete inputs. -/
def plainStyles : Styles :=
  { youBadge := " You "
  , agentBadge := " Agent "
  , reasoningBadge := " Reasoning "
  , functionCallBadge := " Function Call "
  , gray := fun s => s
  , wrap := fun _ s => s
  , block := fun s => s
  , youLabel := "You:"
  , agentLabel := "Agent"
  , reasoningLabel := "Reasoning"
  , functionCallLabel := "Function Call" }

/-- Does this delivered message submit a question (the enter key)? -/
def isSubmit : Msg → Bool
  | .key .enter => true
  | _ => false

/-- Is this delivered message a received agent event? -/
def isAgentEvent : Msg → Bool
  | .answer _ => true
  | .reasoning _ => true
  | .functionCall _ => true
  | _ => false

def countSubmits (msgs : List Msg) : Nat := (msgs.filter isSubmit).length

def countAgentEvents (msgs : List Msg) : Nat := (msgs.filter isAgentEvent).length

/-- The first list is an initial segment of the second. -/
def InitialSegment (l1 l2 : List String) : Prop := ∃ t, l1 ++ t = l2

/-- A concrete clock instant (offset +09:00) for evaluating the
currentTime model. -/
def witnessTime : GoTime :=
  { year := 2026, month := 10, day := 11, hour := 12, minute := 30, second := 45
  , offMin := 540 }

/-- A model state agreeing with initialModel on transcript and width
but differing in previously rendered content, height and history. -/
def junkModel : ChatModel :=
  { initialModel with vpContent := "stale content", vpHeight := 0, dispatched := ["old"] }

/-- The initial model with the letters h i already buffered in the
input box. -/
def submitCexModel : ChatModel :=
  { initialModel with textarea := { value := ['h', 'i'], charLimit := 280 } }

lemma parseDigit_digitChar {n : Nat} (h : n < 10) : parseDigit (digitChar n) = some n := by
  have hall : ∀ m : Nat, m < 10 → parseDigit (digitChar m) = some m := by decide
  exact hall n h

lemma parse2_pad2 {n : Nat} (h : n < 100) (rest : List Char) :
    parse2 (pad2 n ++ rest) = some (n, rest) := by
  have ha : n / 10 < 10 := by omega
  have hb : n % 10 < 10 := by omega
  simp [pad2, parse2, parseDigit_digitChar ha, parseDigit_digitChar hb]
  omega

lemma parse2_pad2_nil {n : Nat} (h : n < 100) : parse2 (pad2 n) = some (n, []) := by
  have := parse2_pad2 h []
  simpa using this

lemma parse4_pad4 {n : Nat} (h : n < 10000) (rest : List Char) :
    parse4 (pad4 n ++ rest) = some (n, rest) := by
  have h1 : n / 1000 < 10 := by omega
  have h2 : n / 100 % 10 < 10 := by omega
  have h3 : n / 10 % 10 < 10 := by omega
  have h4 : n % 10 < 10 := by omega
  simp [pad4, parse4, parseDigit_digitChar h1, parseDigit_digitChar h2,
    parseDigit_digitChar h3, parseDigit_digitChar h4]
  omega

lemma expect_cons (c : Char) (rest : List Char) : expect c (c :: rest) = some rest := by
  simp [expect]

lemma parseOffs_pads {a b : Nat} (ha : a < 100) (hb : b < 100) :
    parseOffs (pad2 a ++ ':' :: pad2 b) = some (a * 60 + b) := by
  simp [parseOffs, parse2_pad2 ha, expect_cons, parse2_pad2_nil hb]

lemma parseTZ_tzChars {off : Int} (h : off.natAbs ≤ 1439) :
    parseTZ (tzChars off) = some off := by
  by_cases h0 : off = 0
  · subst h0; simp [tzChars, parseTZ]
  · by_cases hpos : 0 < off
    · have ha : off.toNat / 60 < 100 := by omega
      have hb : off.toNat % 60 < 100 := by omega
      simp only [tzChars, if_neg h0, if_pos hpos]
      have hp : ('+' : Char) ≠ 'Z' := by decide
      simp [parseTZ, hp, parseOffs_pads ha hb]
      omega
    · have hneg : 0 < -off := by omega
      have ha : (-off).toNat / 60 < 100 := by omega
      have hb : (-off).toNat % 60 < 100 := by omega
      simp only [tzChars, if_neg h0, if_neg hpos]
      have hmz : ('-' : Char) ≠ 'Z' := by decide
      have hmp : ('-' : Char) ≠ '+' := by decide
      simp [parseTZ, hmz, hmp, parseOffs_pads ha hb]
      omega

/-- Round trip: parsing the formatted instant recovers it exactly. -/
lemma parseRFC3339_formatRFC3339 (t : GoTime) (h : ValidGoTime t) :
    parseRFC3339 (formatRFC3339 t) = some t := by
  obtain ⟨hy, hm1, hm2, hd1, hd2, hh, hmi, hs, hoff⟩ := h
  have hy4 : t.year < 10000 := by omega
  have hmo : t.month < 100 := by omega
  have hd : t.day < 100 := by omega
  have hh2 : t.hour < 100 := by omega
  have hmi2 : t.minute < 100 := by omega
  have hs2 : t.second < 100 := by omega
  simp only [formatRFC3339, parseRFC3339, parse4_pad4 hy4, expect_cons,
    parse2_pad2 hmo, parse2_pad2 hd, parse2_pad2 hh2, parse2_pad2 hmi2,
    parse2_pad2 hs2, parseTZ_tzChars hoff]
  have hcond : 1 ≤ t.month ∧ t.month ≤ 12 ∧ 1 ≤ t.day ∧ t.day ≤ 31 ∧
      t.hour ≤ 23 ∧ t.minute ≤ 59 ∧ t.second ≤ 59 := by
    exact ⟨hm1, hm2, hd1, hd2, hh, hmi, hs⟩
  rw [if_pos hcond]

lemma preStep_messages (m : ChatModel) (msg : Msg) : (preStep m msg).messages = m.messages := by
  cases msg <;> rfl

lemma preStep_dispatched (m : ChatModel) (msg : Msg) :
    (preStep m msg).dispatched = m.dispatched := by
  cases msg <;> rfl

lemma update000_length (st : Styles) (m : ChatModel) (msg : Msg) :
    (update000 st m msg).messages.length =
      m.messages.length + (if isSubmit msg || isAgentEvent msg then 1 else 0) := by
  cases msg with
  | windowSize w h =>
    simp only [update000, preStep, isSubmit, isAgentEvent]
    split <;> simp [setVp000]
  | answer s => simp [update000, preStep, setVp000, isSubmit, isAgentEvent]
  | reasoning s => simp [update000, preStep, setVp000, isSubmit, isAgentEvent]
  | functionCall s => simp [update000, preStep, setVp000, isSubmit, isAgentEvent]
  | key k => cases k <;> simp [update000, preStep, setVp000, isSubmit, isAgentEvent]
  | errMsg e => simp [update000, preStep, isSubmit, isAgentEvent]

lemma update001_length (st : Styles) (m : ChatModel) (msg : Msg) :
    (update001 st m msg).messages.length =
      m.messages.length + (if isSubmit msg || isAgentEvent msg then 2 else 0) := by
  cases msg with
  | windowSize w h =>
    simp only [update001, preStep, isSubmit, isAgentEvent]
    split <;> simp [setVp001]
  | answer s => simp [update001, preStep, setVp001, isSubmit, isAgentEvent]
  | reasoning s => simp [update001, preStep, setVp001, isSubmit, isAgentEvent]
  | functionCall s => simp [update001, preStep, setVp001, isSubmit, isAgentEvent]
  | key k => cases k <;> simp [update001, preStep, setVp001, isSubmit, isAgentEvent]
  | errMsg e => simp [update001, preStep, isSubmit, isAgentEvent]

lemma countSubmits_cons (x : Msg) (msgs : List Msg) :
    countSubmits (x :: msgs) = (if isSubmit x then 1 else 0) + countSubmits msgs := by
  simp only [countSubmits, List.filter_cons]
  split <;> simp [Nat.add_comm]

lemma countAgentEvents_cons (x : Msg) (msgs : List Msg) :
    countAgentEvents (x :: msgs) = (if isAgentEvent x then 1 else 0) + countAgentEvents msgs := by
  simp only [countAgentEvents, List.filter_cons]
  split <;> simp [Nat.add_comm]

lemma foldl000_length (st : Styles) :
    ∀ (msgs : List Msg) (m : ChatModel),
      ((msgs.foldl (update000 st) m).messages).length =
        m.messages.length + countSubmits msgs + countAgentEvents msgs := by
  intro msgs
  induction msgs with
  | nil => intro m; simp [countSubmits, countAgentEvents]
  | cons x xs ih =>
    intro m
    have hstep := update000_length st m x
    have hrec := ih (update000 st m x)
    rw [List.foldl_cons, countSubmits_cons, countAgentEvents_cons]
    cases x with
    | key k => cases k <;> (simp [isSubmit, isAgentEvent] at hstep ⊢; omega)
    | _ => (simp [isSubmit, isAgentEvent] at hstep ⊢; omega)

lemma foldl001_length (st : Styles) :
    ∀ (msgs : List Msg) (m : ChatModel),
      ((msgs.foldl (update001 st) m).messages).length =
        m.messages.length + 2 * (countSubmits msgs + countAgentEvents msgs) := by
  intro msgs
  induction msgs with
  | nil => intro m; simp [countSubmits, countAgentEvents]
  | cons x xs ih =>
    intro m
    have hstep := update001_length st m x
    have hrec := ih (update001 st m x)
    rw [List.foldl_cons, countSubmits_cons, countAgentEvents_cons]
    cases x with
    | key k => cases k <;> (simp [isSubmit, isAgentEvent] at hstep ⊢; omega)
    | _ => (simp [isSubmit, isAgentEvent] at hstep ⊢; omega)

lemma taInsert_charLimit (ta : TextArea) (cs : List Char) :
    (taInsert ta cs).charLimit = ta.charLimit := by
  unfold taInsert; split <;> rfl

lemma taInsert_length_le (ta : TextArea) (cs : List Char)
    (hpos : 0 < ta.charLimit) (h : ta.value.length ≤ ta.charLimit) :
    (taInsert ta cs).value.length ≤ ta.charLimit := by
  unfold taInsert
  rw [if_pos hpos]
  simp only [List.length_append, List.length_take]
  omega

lemma taUpdate_charLimit (ta : TextArea) (k : Key) :
    (taUpdate ta k).charLimit = ta.charLimit := by
  cases k <;> simp [taUpdate, taInsert_charLimit]

lemma taUpdate_length_le (ta : TextArea) (k : Key)
    (hpos : 0 < ta.charLimit) (h : ta.value.length ≤ ta.charLimit) :
    (taUpdate ta k).value.length ≤ ta.charLimit := by
  cases k with
  | runes cs => exact taInsert_length_le ta cs hpos h
  | backspace =>
    simp only [taUpdate, List.length_dropLast]
    omega
  | _ => exact h

/-- The invariant of the part000 run: the CharLimit stays 280, the
buffer stays within it, and every dispatched question is at most 280
characters. -/
def Inv000 (m : ChatModel) : Prop :=
  m.textarea.charLimit = 280 ∧ m.textarea.value.length ≤ 280 ∧
  ∀ q ∈ m.dispatched, q.length ≤ 280

/-- The invariant of the part001 run: as for part000, except that every
dispatched question is the buffered text plus a trailing newline. -/
def Inv001 (m : ChatModel) : Prop :=
  m.textarea.charLimit = 280 ∧ m.textarea.value.length ≤ 280 ∧
  ∀ q ∈ m.dispatched, ∃ t : String, q = t ++ "\n" ∧ t.length ≤ 280

lemma preStep_inv (m : ChatModel) (msg : Msg)
    (h1 : m.textarea.charLimit = 280) (h2 : m.textarea.value.length ≤ 280) :
    (preStep m msg).textarea.charLimit = 280 ∧
    (preStep m msg).textarea.value.length ≤ 280 := by
  cases msg with
  | key k =>
    constructor
    · simp [preStep, taUpdate_charLimit, h1]
    · simp only [preStep]
      have := taUpdate_length_le m.textarea k (by omega) (by omega)
      omega
  | _ => exact ⟨h1, h2⟩

lemma length_mk (cs : List Char) : (String.mk cs).length = cs.length := rfl

lemma update000_inv (st : Styles) (m : ChatModel) (msg : Msg)
    (h : Inv000 m) : Inv000 (update000 st m msg) := by
  obtain ⟨h1, h2, h3⟩ := h
  obtain ⟨p1, p2⟩ := preStep_inv m msg h1 h2
  have pd := preStep_dispatched m msg
  cases msg with
  | windowSize w h =>
    simp only [update000]
    split <;> exact ⟨p1, p2, by rw [pd] at *; simpa [setVp000] using h3⟩
  | answer s => exact ⟨p1, p2, by simp only [setVp000, update000]; rw [pd]; exact h3⟩
  | reasoning s => exact ⟨p1, p2, by simp only [setVp000, update000]; rw [pd]; exact h3⟩
  | functionCall s => exact ⟨p1, p2, by simp only [setVp000, update000]; rw [pd]; exact h3⟩
  | errMsg e => exact ⟨p1, p2, by simp only [update000]; rw [pd]; exact h3⟩
  | key k =>
    cases k with
    | enter =>
      refine ⟨by simpa [update000, setVp000] using p1, by simp [update000, setVp000], ?_⟩
      intro q hq
      simp only [update000, setVp000] at hq
      rw [pd] at hq
      rcases List.mem_append.mp hq with hq1 | hq2
      · exact h3 q hq1
      · have hq3 : q = String.mk (preStep m (.key .enter)).textarea.value := by
          simpa using hq2
        rw [hq3, length_mk]
        exact p2
    | ctrlJ =>
      refine ⟨by simpa [update000, taInsert_charLimit] using p1, ?_, ?_⟩
      · simp only [update000]
        have := taInsert_length_le (preStep m (.key .ctrlJ)).textarea ['\n']
          (by omega) (by omega)
        omega
      · simp only [update000]; rw [pd]; exact h3
    | ctrlC => exact ⟨p1, p2, by simp only [update000]; rw [pd]; exact h3⟩
    | esc => exact ⟨p1, p2, by simp only [update000]; rw [pd]; exact h3⟩
    | runes cs => exact ⟨p1, p2, by simp only [update000]; rw [pd]; exact h3⟩
    | backspace => exact ⟨p1, p2, by simp only [update000]; rw [pd]; exact h3⟩
    | other => exact ⟨p1, p2, by simp only [update000]; rw [pd]; exact h3⟩

lemma update001_inv (st : Styles) (m : ChatModel) (msg : Msg)
    (h : Inv001 m) : Inv001 (update001 st m msg) := by
  obtain ⟨h1, h2, h3⟩ := h
  obtain ⟨p1, p2⟩ := preStep_inv m msg h1 h2
  have pd := preStep_dispatched m msg
  cases msg with
  | windowSize w h =>
    simp only [update001]
    split <;> exact ⟨p1, p2, by rw [pd] at *; simpa [setVp001] using h3⟩
  | answer s => exact ⟨p1, p2, by simp only [setVp001, update001]; rw [pd]; exact h3⟩
  | reasoning s => exact ⟨p1, p2, by simp only [setVp001, update001]; rw [pd]; exact h3⟩
  | functionCall s => exact ⟨p1, p2, by simp only [setVp001, update001]; rw [pd]; exact h3⟩
  | errMsg e => exact ⟨p1, p2, by simp only [update001]; rw [pd]; exact h3⟩
  | key k =>
    cases k with
    | enter =>
      refine ⟨by simpa [update001, setVp001] using p1, by simp [update001, setVp001], ?_⟩
      intro q hq
      simp only [update001, setVp001] at hq
      rw [pd] at hq
      rcases List.mem_append.mp hq with hq1 | hq2
      · exact h3 q hq1
      · refine ⟨String.mk (preStep m (.key .enter)).textarea.value, by simpa using hq2, ?_⟩
        rw [length_mk]
        exact p2
    | ctrlJ =>
      refine ⟨by simpa [update001, taInsert_charLimit] using p1, ?_, ?_⟩
      · simp only [update001]
        have := taInsert_length_le (preStep m (.key .ctrlJ)).textarea ['\n']
          (by omega) (by omega)
        omega
      · simp only [update001]; rw [pd]; exact h3
    | ctrlC => exact ⟨p1, p2, by simp only [update001]; rw [pd]; exact h3⟩
    | esc => exact ⟨p1, p2, by simp only [update001]; rw [pd]; exact h3⟩
    | runes cs => exact ⟨p1, p2, by simp only [update001]; rw [pd]; exact h3⟩
    | backspace => exact ⟨p1, p2, by simp only [update001]; rw [pd]; exact h3⟩
    | other => exact ⟨p1, p2, by simp only [update001]; rw [pd]; exact h3⟩

lemma run000_inv (st : Styles) (msgs : List Msg) : Inv000 (run000 st msgs) := by
  have hgen : ∀ (ms : List Msg) (m : ChatModel),
      Inv000 m → Inv000 (ms.foldl (update000 st) m) := by
    intro ms
    induction ms with
    | nil => intro m hm; exact hm
    | cons x xs ih => intro m hm; exact ih _ (update000_inv st m x hm)
  exact hgen msgs initialModel ⟨rfl, by simp [initialModel], by simp [initialModel]⟩

lemma run001_inv (st : Styles) (msgs : List Msg) : Inv001 (run001 st msgs) := by
  have hgen : ∀ (ms : List Msg) (m : ChatModel),
      Inv001 m → Inv001 (ms.foldl (update001 st) m) := by
    intro ms
    induction ms with
    | nil => intro m hm; exact hm
    | cons x xs ih => intro m hm; exact ih _ (update001_inv st m x hm)
  exact hgen msgs initialModel ⟨rfl, by simp [initialModel], by simp [initialModel]⟩

lemma update000_extends (st : Styles) (m : ChatModel) (msg : Msg) :
    InitialSegment m.messages (update000 st m msg).messages := by
  cases msg with
  | windowSize w h =>
    refine ⟨[], ?_⟩
    rw [List.append_nil]
    simp only [update000, preStep]
    split <;> rfl
  | answer s => exact ⟨[answerContent st s], rfl⟩
  | reasoning s => exact ⟨[reasoningContent st s], rfl⟩
  | functionCall s => exact ⟨[functionCallContent st s], rfl⟩
  | errMsg e => exact ⟨[], List.append_nil _⟩
  | key k =>
    cases k with
    | enter => exact ⟨[st.youBadge ++ " " ++ String.mk m.textarea.value], rfl⟩
    | ctrlJ => exact ⟨[], List.append_nil _⟩
    | ctrlC => exact ⟨[], List.append_nil _⟩
    | esc => exact ⟨[], List.append_nil _⟩
    | runes cs => exact ⟨[], List.append_nil _⟩
    | backspace => exact ⟨[], List.append_nil _⟩
    | other => exact ⟨[], List.append_nil _⟩

lemma update001_extends (st : Styles) (m : ChatModel) (msg : Msg) :
    InitialSegment m.messages (update001 st m msg).messages := by
  cases msg with
  | windowSize w h =>
    refine ⟨[], ?_⟩
    rw [List.append_nil]
    simp only [update001, preStep]
    split <;> rfl
  | answer s => exact ⟨[st.agentLabel, s], rfl⟩
  | reasoning s => exact ⟨[st.reasoningLabel, s], rfl⟩
  | functionCall s => exact ⟨[st.functionCallLabel, s], rfl⟩
  | errMsg e => exact ⟨[], List.append_nil _⟩
  | key k =>
    cases k with
    | enter => exact ⟨[st.youLabel, String.mk m.textarea.value ++ "\n"], rfl⟩
    | ctrlJ => exact ⟨[], List.append_nil _⟩
    | ctrlC => exact ⟨[], List.append_nil _⟩
    | esc => exact ⟨[], List.append_nil _⟩
    | runes cs => exact ⟨[], List.append_nil _⟩
    | backspace => exact ⟨[], List.append_nil _⟩
    | other => exact ⟨[], List.append_nil _⟩

/- ## Claim theorems -/

/-- C1 (amended): for every delivered message sequence with N enter
submissions and M agent events, the part000 messages list holds exactly
N plus M entries, while the part001 messages list holds 2 times (N plus
M) strings, since each append there pushes a role label string and a
text string. -/
theorem transcript_length_by_variant (st : Styles) (msgs : List Msg) :
    (run000 st msgs).messages.length = countSubmits msgs + countAgentEvents msgs ∧
    (run001 st msgs).messages.length = 2 * (countSubmits msgs + countAgentEvents msgs) := by
  constructor
  · have h := foldl000_length st msgs initialModel
    simp only [run000]
    rw [h]
    simp [initialModel]
  · have h := foldl001_length st msgs initialModel
    simp only [run001]
    rw [h]
    simp [initialModel]

/-- C1 (counterexample): after zero submissions and one received agent
event, the part001 messages list holds two entries, not one, so the
transcript does not contain exactly N plus M entries. -/
theorem transcript_not_N_plus_M_in_part001 :
    ¬ ((run001 plainStyles [Msg.answer "hi"]).messages.length =
        countSubmits [Msg.answer "hi"] + countAgentEvents [Msg.answer "hi"]) := by
  decide

/-- C2 (code bug): with the valid JSON argument whose url field contains
a control character, json.Unmarshal succeeds, http.NewRequest rejects
the URL and returns a nil request, and the WebReader handler panics at
req.Header.Set instead of returning an error string. -/
theorem webReader_panics_on_rejected_url :
    webReaderHandler toolGoUA (Except.ok { url := "http://a\nb" }) newRequestGET
      (fun _ => Except.error "no network") (fun b => Except.ok b) =
      HandlerOutcome.panics := rfl

/-- C3: the rendered viewport content is a function of the transcript
and the viewport width alone, for both variants: two states agreeing on
those fields render to identical content regardless of any previously
rendered content or height history, and re-rendering is idempotent. -/
theorem render_pure_idempotent (st : Styles) (a b c d : ChatModel)
    (hm : a.messages = b.messages) (hw : a.vpWidth = b.vpWidth)
    (hm2 : c.messages = d.messages) (hw2 : c.vpWidth = d.vpWidth) :
    (setVp000 st a).vpContent = (setVp000 st b).vpContent ∧
    (setVp000 st (setVp000 st a)).vpContent = (setVp000 st a).vpContent ∧
    (setVp001 st c).vpContent = (setVp001 st d).vpContent ∧
    (setVp001 st (setVp001 st c)).vpContent = (setVp001 st c).vpContent := by
  refine ⟨?_, rfl, ?_, rfl⟩
  · simp [setVp000, hm, hw]
  · simp [setVp001, hm2, hw2]

/-- C3 witness: the initial model and a state with stale content, zero
height and a different dispatch history render identically. -/
theorem render_pure_idempotent_witness :
    initialModel.messages = junkModel.messages ∧
    initialModel.vpWidth = junkModel.vpWidth ∧
    ((setVp000 plainStyles initialModel).vpContent =
        (setVp000 plainStyles junkModel).vpContent ∧
      (setVp000 plainStyles (setVp000 plainStyles initialModel)).vpContent =
        (setVp000 plainStyles initialModel).vpContent ∧
      (setVp001 plainStyles initialModel).vpContent =
        (setVp001 plainStyles junkModel).vpContent ∧
      (setVp001 plainStyles (setVp001 plainStyles initialModel)).vpContent =
        (setVp001 plainStyles initialModel).vpContent) :=
  ⟨rfl, rfl,
    render_pure_idempotent plainStyles initialModel junkModel initialModel junkModel
      rfl rfl rfl rfl⟩

/-- C4: on a json.Unmarshal failure (any malformed argument string,
such as a lone opening brace) the webSearch handler returns exactly the
stringified error, hence a non-empty string when the error message is
non-empty, and the search provider is never invoked. -/
theorem webSearch_malformed_args (e : String)
    (search : String → Except String (List SearchResult)) (h : e ≠ "") :
    (webSearchHandler (Except.error e) search).1 = e ∧
    (webSearchHandler (Except.error e) search).1 ≠ "" ∧
    (webSearchHandler (Except.error e) search).2 = false :=
  ⟨rfl, h, rfl⟩

/-- C4 witness: the Go error text for a truncated JSON document. -/
theorem webSearch_malformed_args_witness :
    ("unexpected end of JSON input" : String) ≠ "" ∧
    ((webSearchHandler (Except.error "unexpected end of JSON input")
        (fun _ => Except.ok [])).1 = "unexpected end of JSON input" ∧
      (webSearchHandler (Except.error "unexpected end of JSON input")
        (fun _ => Except.ok [])).1 ≠ "" ∧
      (webSearchHandler (Except.error "unexpected end of JSON input")
        (fun _ => Except.ok [])).2 = false) :=
  ⟨by decide, webSearch_malformed_args "unexpected end of JSON input"
      (fun _ => Except.ok []) (by decide)⟩

/-- C5 (amended): on enter, part000 appends exactly one You entry (the
rendered badge, a space, and the buffered text), clears the input box
and dispatches the buffered text itself; part001 instead appends two
strings (the rendered You label, and the text with a trailing newline)
and dispatches the text with the trailing newline.  Both clear the
input box and neither validates the text (the equations hold for every
state, the empty buffer included). -/
theorem submit_effects (st : Styles) (m0 m1 : ChatModel) :
    (update000 st m0 (Msg.key Key.enter)).messages =
      m0.messages ++ [st.youBadge ++ " " ++ String.mk m0.textarea.value] ∧
    (update000 st m0 (Msg.key Key.enter)).textarea.value = [] ∧
    (update000 st m0 (Msg.key Key.enter)).dispatched =
      m0.dispatched ++ [String.mk m0.textarea.value] ∧
    (update001 st m1 (Msg.key Key.enter)).messages =
      m1.messages ++ [st.youLabel, String.mk m1.textarea.value ++ "\n"] ∧
    (update001 st m1 (Msg.key Key.enter)).textarea.value = [] ∧
    (update001 st m1 (Msg.key Key.enter)).dispatched =
      m1.dispatched ++ [String.mk m1.textarea.value ++ "\n"] :=
  ⟨rfl, rfl, rfl, rfl, rfl, rfl⟩

/-- C5 (counterexample): submitting the buffered text hi in part001
appends two transcript strings rather than exactly one, and dispatches
the string hi followed by a newline rather than hi itself. -/
theorem submit_not_single_entry_in_part001 :
    ¬ ((update001 plainStyles submitCexModel (Msg.key Key.enter)).messages.length =
          submitCexModel.messages.length + 1 ∧
        (update001 plainStyles submitCexModel (Msg.key Key.enter)).dispatched =
          submitCexModel.dispatched ++ ["hi"]) := by
  decide

/-- C6: both Update functions only ever append to the transcript: for
every state and every delivered message, the previous messages list is
an initial segment, in order, of the new one. -/
theorem transcript_append_only (st : Styles) (m0 m1 : ChatModel) (msg : Msg) :
    InitialSegment m0.messages (update000 st m0 msg).messages ∧
    InitialSegment m1.messages (update001 st m1 msg).messages :=
  ⟨update000_extends st m0 msg, update001_extends st m1 msg⟩

/-- C7: the currentTime handler ignores its argument, returns the clock
instant in the RFC 3339 layout, and (the clock being an input) parsing
the returned string recovers the invocation instant exactly. -/
theorem currentTime_ignores_args_roundtrip (t : GoTime) (args args2 : String)
    (h : ValidGoTime t) :
    currentTime t args = currentTime t args2 ∧
    currentTime t args = String.mk (formatRFC3339 t) ∧
    parseRFC3339 (currentTime t args).data = some t := by
  refine ⟨rfl, rfl, ?_⟩
  exact parseRFC3339_formatRFC3339 t h

/-- C7 witness: a concrete instant with offset +09:00, evaluated with
two distinct argument strings. -/
theorem currentTime_ignores_args_roundtrip_witness :
    ValidGoTime witnessTime ∧
    (currentTime witnessTime "a" = currentTime witnessTime "b" ∧
      currentTime witnessTime "a" = String.mk (formatRFC3339 witnessTime) ∧
      parseRFC3339 (currentTime witnessTime "a").data = some witnessTime) :=
  ⟨by decide, currentTime_ignores_args_roundtrip witnessTime "a" "b" (by decide)⟩

/-- C8: initialModel sets CharLimit to 280, and in every run of either
variant each dispatched question respects it: in part000 its length is
at most 280 characters, and in part001 it is a text of at most 280
characters followed by the appended newline. -/
theorem submitted_text_bounded (st : Styles) (msgs : List Msg) :
    initialModel.textarea.charLimit = 280 ∧
    (∀ q ∈ (run000 st msgs).dispatched, q.length ≤ 280) ∧
    (∀ q ∈ (run001 st msgs).dispatched,
      ∃ t : String, q = t ++ "\n" ∧ t.length ≤ 280) :=
  ⟨rfl, (run000_inv st msgs).2.2, (run001_inv st msgs).2.2⟩

/-- C8 witness: typing hi and pressing enter in part000 dispatches the
question hi, whose length is within the limit. -/
theorem submitted_text_bounded_witness :
    "hi" ∈ (run000 plainStyles [Msg.key (Key.runes ['h', 'i']), Msg.key Key.enter]).dispatched ∧
    ("hi" : String).length ≤ 280 :=
  ⟨by decide,
    (submitted_text_bounded plainStyles
        [Msg.key (Key.runes ['h', 'i']), Msg.key Key.enter]).2.1 "hi" (by decide)⟩

/-- C9: when json.Unmarshal succeeds with the keyword field absent (any
valid JSON object without it decodes to the empty keyword), the
webSearch handler performs no required-field check: it invokes the
search provider with the empty keyword, and its result is the search
path result, never a parse error. -/
theorem webSearch_missing_keyword_no_parse_error
    (search : String → Except String (List SearchResult)) :
    (webSearchHandler (Except.ok { keyword := "" }) search).2 = true ∧
    webSearchHandler (Except.ok { keyword := "" }) search =
      (match search "" with
       | Except.error e => (e, true)
       | Except.ok res => (marshalResults res, true)) := by
  constructor
  · cases h : search "" <;> simp [webSearchHandler, h]
  · cases h : search "" <;> simp [webSearchHandler, h]

/-- C10: the registered Description of the webSearch tool is exactly
the currentTime description string, not a description of web search. -/
theorem webSearch_description_copied_from_currentTime :
    Tools.length = 3 ∧
    (Tools.get ⟨1, by decide⟩).name = "webSearch" ∧
    (Tools.get ⟨1, by decide⟩).description =
      "Get the current date and time with timezone in a human-readable format." ∧
    (Tools.get ⟨1, by decide⟩).description = (Tools.get ⟨0, by decide⟩).description :=
  ⟨rfl, rfl, rfl, rfl⟩
